import Mathlib

/-!
Verification of the host-side simulation orchestration of the Physarum
repository (Rust, wgpu): a shallow embedding of the configuration record,
the agent-seeding vector math, the per-tick dispatch arithmetic, the
render-callback error handling and the event-loop state, together with
theorems settling the specified properties.

Conventions of the embedding:
* Rust `u32` values are `Nat`; wherever a `u32` addition can overflow,
  the embedding applies `% 2 ^ 32` exactly where the machine operation wraps
  (release-profile semantics).
* Rust `f32` configuration constants are `Rat` (their exact numeric values);
  the vector math of agent seeding, which needs a square root, is embedded
  over `ℝ`.
* The random generator is an explicit argument: `rand::Rng::gen_range(lo..hi)`
  is modelled as `lo + u * (hi - lo)` for a caller-supplied unit sample
  `u ∈ [0, 1)`.
-/

namespace Physarum

/-! ## Configuration (src/parameters.rs) -/

/-- From `parameters.rs`: `enum InitialHeading { Inward, Outward, Random }`
with `Random` as the `#[default]` variant. -/
inductive InitialHeading
  | Inward
  | Outward
  | Random
deriving DecidableEq

/-- From `parameters.rs`: `struct InitialConditions` with the spawn-circle
radius and the heading policy. -/
structure InitialConditions where
  initial_circle_radius : ℚ
  initial_heading : InitialHeading
deriving DecidableEq

/-- The `SmartDefault` derivation of `InitialConditions`:
`initial_circle_radius = 500.0`, `initial_heading = Random`. -/
def InitialConditions.build : InitialConditions :=
  { initial_circle_radius := 500, initial_heading := InitialHeading.Random }

/-- From `parameters.rs`: `struct ShaderParameters`, the flat record of
tunables uploaded as the uniform buffer; `u32` fields are `Nat`, `f32`
fields are `Rat`. -/
structure ShaderParameters where
  agent_speed : ℚ
  bool_enable_agent_bounce : ℕ
  bool_enable_agent_deposit : ℕ
  bool_enable_agent_rotate : ℕ
  bool_enable_agent_rotate_left : ℕ
  bool_enable_agent_rotate_randomly : ℕ
  bool_enable_agent_rotate_right : ℕ
  bool_enable_color : ℕ
  bool_enable_decay : ℕ
  bool_enable_diffuse : ℕ
  bool_enable_render_trail_map : ℕ
  bool_enable_high_density_dispersion : ℕ
  canvas_width : ℕ
  canvas_height : ℕ
  number_of_active_agents : ℕ
  vertex_stretch : ℚ
  decay_strength : ℚ
  sensor_angle_degrees : ℚ
  max_turn_angle_degrees : ℚ
  max_rand_turn_angle_degrees : ℚ
  high_density_threshold : ℚ
  high_density_speed_boost : ℚ
  deposit_strength : ℚ
  sensor_distance : ℚ
deriving DecidableEq

/-- The `TypedBuilder` construction of `ShaderParameters` as invoked in
`State::new` (src/lib.rs): only `canvas_width` and `canvas_height` are set
by the caller, every other field takes its `#[builder(default = ...)]`
value from `parameters.rs`. -/
def ShaderParameters.build (canvas_width canvas_height : ℕ) : ShaderParameters where
  agent_speed := 1
  bool_enable_agent_bounce := 1
  bool_enable_agent_deposit := 1
  bool_enable_agent_rotate := 1
  bool_enable_agent_rotate_left := 1
  bool_enable_agent_rotate_randomly := 1
  bool_enable_agent_rotate_right := 1
  bool_enable_color := 1
  bool_enable_decay := 1
  bool_enable_diffuse := 1
  bool_enable_render_trail_map := 1
  bool_enable_high_density_dispersion := 0
  canvas_width := canvas_width
  canvas_height := canvas_height
  number_of_active_agents := 10000000
  vertex_stretch := 1
  decay_strength := 0.32
  sensor_angle_degrees := 24.2
  max_turn_angle_degrees := 29.15
  max_rand_turn_angle_degrees := 1.38
  high_density_threshold := 0.56
  high_density_speed_boost := 0.85
  deposit_strength := 0.03
  sensor_distance := 33.8

/-- From `parameters.rs`: `struct Parameters`. -/
structure Parameters where
  target_ticks_per_second : ℚ
  number_of_agents : ℕ
  initial_conditions : InitialConditions
  shader_parameters : ShaderParameters
deriving DecidableEq

/-- The `TypedBuilder` construction of `Parameters` as invoked in
`State::new`: only `shader_parameters` is set by the caller;
`target_ticks_per_second = 60.0`, `number_of_agents = 500_000` and the
default `InitialConditions` come from the builder defaults. -/
def Parameters.build (shader_parameters : ShaderParameters) : Parameters where
  target_ticks_per_second := 60
  number_of_agents := 500000
  initial_conditions := InitialConditions.build
  shader_parameters := shader_parameters

/-- The full configuration produced by `State::new` for a window of the
given inner size (the program fixes it at 1400 x 1400 in `run`). -/
def newStateParams (width height : ℕ) : Parameters :=
  Parameters.build (ShaderParameters.build width height)

/-- Model of `rand::Rng::gen_range(lo..hi)` for a unit sample `u`:
a uniform draw from the half-open interval `[lo, hi)` is `lo + u * (hi - lo)`
with `u` uniform in `[0, 1)`. -/
def gen_range (lo hi u : ℚ) : ℚ := lo + u * (hi - lo)

/-- From `parameters.rs`, `ShaderParameters::randomize`: eight sequential
`gen_range` draws overwrite exactly the eight listed fields, with the
bounds written in the source; the random generator is passed in as the
eight unit samples `u`. -/
def ShaderParameters.randomize (p : ShaderParameters) (u : Fin 8 → ℚ) :
    ShaderParameters :=
  { p with
    decay_strength := gen_range 0.001 0.5 (u 0)
    sensor_angle_degrees := gen_range 1.0 120.0 (u 1)
    max_turn_angle_degrees := gen_range 1.0 60.0 (u 2)
    max_rand_turn_angle_degrees := gen_range 0.0 10.0 (u 3)
    high_density_speed_boost := gen_range 0.0 20.0 (u 4)
    high_density_threshold := gen_range 0.50 1.0 (u 5)
    deposit_strength := gen_range 0.001 0.03 (u 6)
    sensor_distance := gen_range 5.0 14.0 (u 7) }

/-! ## Dispatch arithmetic (src/lib.rs, `State::update`) -/

/-- Rust `u32` arithmetic wraps modulo `2 ^ 32`. -/
def u32Mod : Nat := 2 ^ 32

/-- From `State::update`:
`WORKGROUP_SIZE_X * WORKGROUP_SIZE_Y * WORKGROUP_SIZE_Z = 8 * 8 * 1`. -/
def threads_per_workgroup : Nat := 8 * 8 * 1

/-- From `State::update`:
`(number_of_active_agents + (threads_per_workgroup - 1)) / threads_per_workgroup`,
a `u32` computation (the addition wraps modulo `2 ^ 32`). -/
def workgroups_needed (number_of_active_agents : Nat) : Nat :=
  ((number_of_active_agents + (threads_per_workgroup - 1)) % u32Mod) /
    threads_per_workgroup

/-- From `State::update`: `NUMBER_OF_WORKGROUPS_X = 32`, the fixed x
dimension of the `agent_sense_move_deposit` dispatch. -/
def number_of_workgroups_x : Nat := 32

/-- From `State::update`: `(workgroups_needed + 31) / 32`, a `u32`
computation (the addition wraps modulo `2 ^ 32`); the y dimension of the
`agent_sense_move_deposit` dispatch. -/
def number_of_workgroups_y (number_of_active_agents : Nat) : Nat :=
  ((workgroups_needed number_of_active_agents + 31) % u32Mod) / 32

/-- The total number of kernel threads covered by the
`agent_sense_move_deposit` dispatch `(32, y, 1)` with 64 threads per
workgroup: `x * y * 64`, computed as an unbounded natural number. -/
def agentDispatchCoverage (number_of_active_agents : Nat) : Nat :=
  number_of_workgroups_x * number_of_workgroups_y number_of_active_agents *
    threads_per_workgroup

/-- From `State::update`: the `diffuse_and_decay` dispatch grid
`(canvas_width / 8, canvas_height / 8, 1)` — Rust unsigned integer
division, which is floor division. -/
def diffuseDispatch (canvas_width canvas_height : Nat) : Nat × Nat × Nat :=
  (canvas_width / 8, canvas_height / 8, 1)

/-- Modelled from the words of the specification, for comparison with
`diffuseDispatch`: `(ceil(canvas_width/8), ceil(canvas_height/8), 1)`. -/
def diffuseDispatchSpec (canvas_width canvas_height : Nat) : Nat × Nat × Nat :=
  ((canvas_width + 7) / 8, (canvas_height + 7) / 8, 1)

/-! ## Agent seeding vector math (src/agent.rs) -/

noncomputable section

/-- The magnitude computed inside `normalize` in `agent.rs`:
`(vec[0].powi(2) + vec[1].powi(2)).sqrt()`. -/
def magnitude (v : ℝ × ℝ) : ℝ := Real.sqrt (v.1 ^ 2 + v.2 ^ 2)

/-- From `agent.rs`, `normalize`: returns the zero vector when the
magnitude is zero (the division-by-zero guard), else divides both
components by the magnitude. -/
def normalize (v : ℝ × ℝ) : ℝ × ℝ :=
  if magnitude v = 0 then (0, 0) else (v.1 / magnitude v, v.2 / magnitude v)

/-- From `agent.rs`, `vector_from_a_to_b`: `[b[0] - a[0], b[1] - a[1]]`. -/
def vector_from_a_to_b (a b : ℝ × ℝ) : ℝ × ℝ := (b.1 - a.1, b.2 - a.2)

/-- The Euclidean inner product of two 2-D vectors, used to state the
heading-direction property. -/
def dot (a b : ℝ × ℝ) : ℝ := a.1 * b.1 + a.2 * b.2

/-- The `InitialHeading::Inward` arm of `Agent::new_with_random_start_position`:
`normalize(vector_from_a_to_b(position, middle))`. -/
def inwardHeading (middle position : ℝ × ℝ) : ℝ × ℝ :=
  normalize (vector_from_a_to_b position middle)

/-- The `InitialHeading::Outward` arm of `Agent::new_with_random_start_position`:
`normalize(vector_from_a_to_b(middle, position))`. -/
def outwardHeading (middle position : ℝ × ℝ) : ℝ × ℝ :=
  normalize (vector_from_a_to_b middle position)

end

/-! ## Render-callback error handling and event loop (src/lib.rs, `run`) -/

/-- The `wgpu::SurfaceError` variants that `State::render` can return. -/
inductive SurfaceError
  | Timeout
  | Outdated
  | Lost
  | OutOfMemory
deriving DecidableEq

/-- Observable host effects of one pass through the `RedrawRequested`
render-error `match`: how many times the surface was reconfigured, whether
`elwt.exit()` was requested, whether `eprintln!` ran, and whether the frame
completed (was presented). -/
structure RenderOutcome where
  reconfigurations : ℕ
  exitRequested : Bool
  logged : Bool
  framePresented : Bool
deriving DecidableEq

/-- From `run` (src/lib.rs), the `match state.render()` in the
`RedrawRequested` arm: `Ok` presents the frame; `Err(Lost)` reconfigures
the surface once; `Err(OutOfMemory)` prints and requests loop exit; any
other error is printed and the frame is skipped. The argument is
`state.render()`'s result, `none` standing for `Ok`. -/
def handleRenderResult : Option SurfaceError → RenderOutcome
  | none => ⟨0, false, false, true⟩
  | some SurfaceError.Lost => ⟨1, false, false, false⟩
  | some SurfaceError.OutOfMemory => ⟨0, true, true, false⟩
  | some _ => ⟨0, false, true, false⟩

/-- The `winit::keyboard::KeyCode` values distinguished by the handler. -/
inductive KeyCodeM
  | Escape
  | KeyR
  | OtherKey
deriving DecidableEq

/-- The events delivered to the `event_loop.run` closure in `run`,
abstracted to the cases its `match` distinguishes; a `RedrawRequested`
carries the result of the `state.render()` call it performs. -/
inductive EventM
  | NewEventsResumeTimeReached
  | NewEventsOther
  | CloseRequested
  | RedrawRequested (result : Option SurfaceError)
  | KeyboardInput (pressed : Bool) (key : KeyCodeM)
  | OtherWindowEvent
  | LoopExiting
  | OtherEvent
deriving DecidableEq

/-- The host-visible mutable state of `run`: the `State::exiting` flag,
whether `elwt.exit()` has been requested, and counters for surface
reconfigurations and redraw requests. -/
structure AppState where
  exiting : Bool
  elwtExitRequested : Bool
  reconfigurations : ℕ
  redrawsRequested : ℕ
deriving DecidableEq

/-- `State::new` initializes `exiting: false`; no reconfiguration or
redraw has happened before the event loop starts. -/
def initialAppState : AppState :=
  { exiting := false, elwtExitRequested := false,
    reconfigurations := 0, redrawsRequested := 0 }

/-- From src/lib.rs, `State::exit`: sets `self.exiting = true`. Its only
call site, in the `LoopExiting` arm of `run`, is commented out in the
source. -/
def State.exit (s : AppState) : AppState := { s with exiting := true }

/-- From `run` (src/lib.rs): one step of the event-handler closure.
`StartCause::ResumeTimeReached` requests a redraw; `CloseRequested` and a
pressed `Escape` call `elwt.exit()`; `RedrawRequested` renders and handles
the result per `handleRenderResult`; the `KeyR` arm is a no-op (the
`randomize` call is commented out); the `LoopExiting` arm only prints (the
`state.exit()` call is commented out). -/
def handleEvent (s : AppState) : EventM → AppState
  | EventM.NewEventsResumeTimeReached =>
      { s with redrawsRequested := s.redrawsRequested + 1 }
  | EventM.NewEventsOther => s
  | EventM.CloseRequested => { s with elwtExitRequested := true }
  | EventM.RedrawRequested result =>
      let outcome := handleRenderResult result
      { s with
        reconfigurations := s.reconfigurations + outcome.reconfigurations
        elwtExitRequested := s.elwtExitRequested || outcome.exitRequested }
  | EventM.KeyboardInput pressed key =>
      if pressed then
        match key with
        | KeyCodeM.Escape => { s with elwtExitRequested := true }
        | KeyCodeM.KeyR => s
        | KeyCodeM.OtherKey => s
      else s
  | EventM.OtherWindowEvent => s
  | EventM.LoopExiting => s
  | EventM.OtherEvent => s

/-- The state after the event loop has delivered a sequence of events. -/
def runEvents (s : AppState) (events : List EventM) : AppState :=
  events.foldl handleEvent s

/-- The simulation ticker's top-of-loop check:
`if state_tick.exiting { break; }`. -/
def tickerBreaks (s : AppState) : Bool := s.exiting

/-! ## Tick timing (src/lib.rs, `run`, ticker task) -/

/-- Rust `as u64` on a nonnegative `f32` truncates toward zero. -/
def f32_as_u64 (x : ℚ) : ℕ := x.floor.toNat

/-- From the ticker task in `run`:
`Duration::from_nanos(1_000_000_000 / target_ticks_per_second as u64)`. -/
def tick_sleep_nanos (target_ticks_per_second : ℚ) : ℕ :=
  1000000000 / f32_as_u64 target_ticks_per_second

/-- The eight unit samples used to instantiate randomize in witnesses. -/
def uHalf : Fin 8 → ℚ := fun _ => mkRat 1 2

/-! ## Helper lemmas -/

lemma magnitude_eq_zero_iff (v : ℝ × ℝ) : magnitude v = 0 ↔ v = (0, 0) := by
  unfold magnitude
  rw [Real.sqrt_eq_zero (by positivity), Prod.ext_iff]
  simp only
  constructor
  · intro h
    constructor
    · nlinarith [sq_nonneg v.1, sq_nonneg v.2]
    · nlinarith [sq_nonneg v.1, sq_nonneg v.2]
  · rintro ⟨h1, h2⟩
    rw [h1, h2]
    ring

lemma sq_magnitude (v : ℝ × ℝ) : magnitude v ^ 2 = v.1 ^ 2 + v.2 ^ 2 :=
  Real.sq_sqrt (by positivity)

lemma handleEvent_exiting (s : AppState) (e : EventM) :
    (handleEvent s e).exiting = s.exiting := by
  cases e with
  | KeyboardInput pressed key =>
      cases pressed <;> cases key <;> rfl
  | _ => rfl

lemma runEvents_exiting (s : AppState) (events : List EventM) :
    (runEvents s events).exiting = s.exiting := by
  induction events generalizing s with
  | nil => rfl
  | cons e rest ih =>
      rw [runEvents, List.foldl_cons, ← runEvents, ih, handleEvent_exiting]

/-! ## Claim theorems -/

/-- Claim C1 (amended): for every active agent count `A` with `0 < A` and
`A ≤ 2 ^ 32 - 64` (so the `u32` addition `A + 63` does not wrap), the
`agent_sense_move_deposit` dispatch `(32, y, 1)` with 64 threads per
workgroup over-covers the active population: `32 * y * 64 ≥ A`. -/
theorem agent_dispatch_covers_active (a : Nat) (h0 : 0 < a)
    (h1 : a ≤ 2 ^ 32 - 64) : a ≤ agentDispatchCoverage a := by
  unfold agentDispatchCoverage number_of_workgroups_x number_of_workgroups_y
    workgroups_needed threads_per_workgroup u32Mod
  omega

/-- Witness for C1: at the default active count 10,000,000 the hypotheses
hold and the dispatch covers 10,000,384 ≥ 10,000,000 threads. -/
theorem agent_dispatch_covers_active_witness :
    0 < 10000000 ∧ 10000000 ≤ 2 ^ 32 - 64 ∧
    10000000 ≤ agentDispatchCoverage 10000000 :=
  ⟨by decide, by decide, agent_dispatch_covers_active 10000000 (by decide) (by decide)⟩

/-- Counterexample for C1 as stated: at the representable `u32` active
count 4,294,967,233 the addition `A + 63` wraps to 0, the computed y
dimension is 0, and the dispatch covers 0 < A threads — the formula
under-covers. -/
theorem agent_dispatch_undercovers_on_overflow :
    0 < 4294967233 ∧ 4294967233 < 2 ^ 32 ∧
    agentDispatchCoverage 4294967233 < 4294967233 := by
  decide

/-- Claim C2 (amended): the default construction path performs no capping:
it yields `number_of_agents = 500,000` and
`number_of_active_agents = 10,000,000`, so the claimed invariant
`active_agent_count ≤ population_count` fails there; `randomize` leaves
the active-agent count unchanged, so no operation restores it. -/
theorem active_count_uncapped (width height : ℕ) :
    (newStateParams width height).number_of_agents = 500000 ∧
    (newStateParams width height).shader_parameters.number_of_active_agents
      = 10000000 ∧
    (newStateParams width height).number_of_agents <
      (newStateParams width height).shader_parameters.number_of_active_agents ∧
    ∀ (p : ShaderParameters) (u : Fin 8 → ℚ),
      (p.randomize u).number_of_active_agents = p.number_of_active_agents := by
  refine ⟨rfl, rfl, ?_, fun p u => rfl⟩
  show (500000 : ℕ) < 10000000
  decide

/-- Counterexample for C2 as stated: in the configuration built by
`State::new` for the program's 1400 x 1400 window, the active agent count
10,000,000 exceeds the population count 500,000 — the invariant does not
hold for the default construction path. -/
theorem default_active_exceeds_population :
    ¬ ((newStateParams 1400 1400).shader_parameters.number_of_active_agents ≤
        (newStateParams 1400 1400).number_of_agents) := by
  decide

/-- Claim C3 (amended): in the overflow-free range, the y dimension of the
fold satisfies `y ≤ 32` exactly when `A ≤ 65,536 = 32 * 32 * 64`; for
larger active counts y grows without that bound (x = 32 is the fixed
dimension). -/
theorem dispatch_y_bound_iff (a : Nat) (h0 : 0 < a)
    (h1 : a ≤ 2 ^ 32 - 64) :
    number_of_workgroups_y a ≤ 32 ↔ a ≤ 65536 := by
  unfold number_of_workgroups_y workgroups_needed threads_per_workgroup u32Mod
  omega

/-- Witness for C3: at active count 64 the hypotheses hold and the
equivalence instantiates. -/
theorem dispatch_y_bound_iff_witness :
    0 < 64 ∧ 64 ≤ 2 ^ 32 - 64 ∧
    (number_of_workgroups_y 64 ≤ 32 ↔ 64 ≤ 65536) :=
  ⟨by decide, by decide, dispatch_y_bound_iff 64 (by decide) (by decide)⟩

/-- Counterexample for C3 as stated: the default active count
A = 10,000,000 satisfies `0 < A ≤ P` for population P = 10,000,000, yet the
computed y dimension is 4,883, far above 32. -/
theorem dispatch_y_exceeds_32_at_default :
    0 < 10000000 ∧ 10000000 ≤ 10000000 ∧
    ¬ (number_of_workgroups_y 10000000 ≤ 32) := by
  decide

/-- Claim C4 (amended): the `diffuse_and_decay` dispatch uses floor
division, `(canvas_width / 8, canvas_height / 8, 1)`; its tiles never
extend past the canvas, and it equals the ceiling grid of the
specification — covering the whole canvas — exactly when 8 divides both
dimensions. -/
theorem diffuse_dispatch_floor (w h : ℕ) :
    8 * (diffuseDispatch w h).1 ≤ w ∧
    8 * (diffuseDispatch w h).2.1 ≤ h ∧
    (diffuseDispatch w h = diffuseDispatchSpec w h ↔ 8 ∣ w ∧ 8 ∣ h) := by
  unfold diffuseDispatch diffuseDispatchSpec
  refine ⟨?_, ?_, ?_⟩
  · simp only
    omega
  · simp only
    omega
  · simp only [Prod.mk.injEq, and_true]
    constructor
    · rintro ⟨hw, hh⟩
      constructor <;> omega
    · rintro ⟨hw, hh⟩
      constructor <;> omega

/-- Counterexample for C4 as stated: at a 9 x 9 canvas the code dispatches
`(1, 1, 1)` while the claimed ceiling grid is `(2, 2, 1)`; one row and one
column of pixels are left uncovered. -/
theorem diffuse_dispatch_floors_at_9 :
    diffuseDispatch 9 9 = (1, 1, 1) ∧ diffuseDispatchSpec 9 9 = (2, 2, 1) ∧
    diffuseDispatch 9 9 ≠ diffuseDispatchSpec 9 9 := by
  decide

/-- Claim C5: a lost surface triggers exactly one reconfiguration, the
frame is skipped and no exit is requested; an out-of-memory error requests
exit with no reconfiguration attempt and the frame skipped; every other
surface error is logged and the frame skipped with no reconfiguration and
no exit; a successful render presents the frame. -/
theorem surface_error_policy :
    (handleRenderResult (some SurfaceError.Lost)).reconfigurations = 1 ∧
    (handleRenderResult (some SurfaceError.Lost)).exitRequested = false ∧
    (handleRenderResult (some SurfaceError.Lost)).framePresented = false ∧
    (handleRenderResult (some SurfaceError.OutOfMemory)).exitRequested = true ∧
    (handleRenderResult (some SurfaceError.OutOfMemory)).reconfigurations = 0 ∧
    (handleRenderResult (some SurfaceError.OutOfMemory)).framePresented = false ∧
    handleRenderResult (some SurfaceError.Timeout) = ⟨0, false, true, false⟩ ∧
    handleRenderResult (some SurfaceError.Outdated) = ⟨0, false, true, false⟩ ∧
    (handleRenderResult none).framePresented = true := by
  decide

/-- Claim C6: with every unit sample in `[0, 1)`, `randomize` puts each of
the eight targeted fields in its documented half-open range
(`decay_strength ∈ [0.001, 0.5)`, `sensor_angle_degrees ∈ [1, 120)`,
`max_turn_angle_degrees ∈ [1, 60)`, `max_rand_turn_angle_degrees ∈ [0, 10)`,
`high_density_speed_boost ∈ [0, 20)`, `high_density_threshold ∈ [0.5, 1)`,
`deposit_strength ∈ [0.001, 0.03)`, `sensor_distance ∈ [5, 14)`) and leaves
each of the other sixteen fields — canvas dimensions, active-agent count
and all feature toggles included — unchanged. -/
theorem randomize_ranges (p : ShaderParameters) (u : Fin 8 → ℚ)
    (hu : ∀ i, 0 ≤ u i ∧ u i < 1) :
    (0.001 ≤ (p.randomize u).decay_strength ∧
      (p.randomize u).decay_strength < 0.5) ∧
    (1 ≤ (p.randomize u).sensor_angle_degrees ∧
      (p.randomize u).sensor_angle_degrees < 120) ∧
    (1 ≤ (p.randomize u).max_turn_angle_degrees ∧
      (p.randomize u).max_turn_angle_degrees < 60) ∧
    (0 ≤ (p.randomize u).max_rand_turn_angle_degrees ∧
      (p.randomize u).max_rand_turn_angle_degrees < 10) ∧
    (0 ≤ (p.randomize u).high_density_speed_boost ∧
      (p.randomize u).high_density_speed_boost < 20) ∧
    (0.5 ≤ (p.randomize u).high_density_threshold ∧
      (p.randomize u).high_density_threshold < 1) ∧
    (0.001 ≤ (p.randomize u).deposit_strength ∧
      (p.randomize u).deposit_strength < 0.03) ∧
    (5 ≤ (p.randomize u).sensor_distance ∧
      (p.randomize u).sensor_distance < 14) ∧
    (p.randomize u).agent_speed = p.agent_speed ∧
    (p.randomize u).bool_enable_agent_bounce = p.bool_enable_agent_bounce ∧
    (p.randomize u).bool_enable_agent_deposit = p.bool_enable_agent_deposit ∧
    (p.randomize u).bool_enable_agent_rotate = p.bool_enable_agent_rotate ∧
    (p.randomize u).bool_enable_agent_rotate_left
      = p.bool_enable_agent_rotate_left ∧
    (p.randomize u).bool_enable_agent_rotate_randomly
      = p.bool_enable_agent_rotate_randomly ∧
    (p.randomize u).bool_enable_agent_rotate_right
      = p.bool_enable_agent_rotate_right ∧
    (p.randomize u).bool_enable_color = p.bool_enable_color ∧
    (p.randomize u).bool_enable_decay = p.bool_enable_decay ∧
    (p.randomize u).bool_enable_diffuse = p.bool_enable_diffuse ∧
    (p.randomize u).bool_enable_render_trail_map
      = p.bool_enable_render_trail_map ∧
    (p.randomize u).bool_enable_high_density_dispersion
      = p.bool_enable_high_density_dispersion ∧
    (p.randomize u).canvas_width = p.canvas_width ∧
    (p.randomize u).canvas_height = p.canvas_height ∧
    (p.randomize u).number_of_active_agents = p.number_of_active_agents ∧
    (p.randomize u).vertex_stretch = p.vertex_stretch := by
  refine ⟨?_, ?_, ?_, ?_, ?_, ?_, ?_, ?_,
    rfl, rfl, rfl, rfl, rfl, rfl, rfl, rfl, rfl, rfl, rfl, rfl, rfl, rfl,
    rfl, rfl⟩
  all_goals simp only [ShaderParameters.randomize, gen_range]
  all_goals constructor <;> nlinarith [(hu 0).1, (hu 0).2, (hu 1).1, (hu 1).2,
    (hu 2).1, (hu 2).2, (hu 3).1, (hu 3).2, (hu 4).1, (hu 4).2,
    (hu 5).1, (hu 5).2, (hu 6).1, (hu 6).2, (hu 7).1, (hu 7).2]

/-- Witness for C6: instantiated at the default-built parameters for the
1400 x 1400 window and all unit samples equal to one half. -/
theorem randomize_ranges_witness :
    (∀ i : Fin 8, 0 ≤ uHalf i ∧ uHalf i < 1) ∧
    ((0.001 ≤ ((ShaderParameters.build 1400 1400).randomize uHalf).decay_strength ∧
      ((ShaderParameters.build 1400 1400).randomize uHalf).decay_strength < 0.5) ∧
    (1 ≤ ((ShaderParameters.build 1400 1400).randomize uHalf).sensor_angle_degrees ∧
      ((ShaderParameters.build 1400 1400).randomize uHalf).sensor_angle_degrees < 120) ∧
    (1 ≤ ((ShaderParameters.build 1400 1400).randomize uHalf).max_turn_angle_degrees ∧
      ((ShaderParameters.build 1400 1400).randomize uHalf).max_turn_angle_degrees < 60) ∧
    (0 ≤ ((ShaderParameters.build 1400 1400).randomize uHalf).max_rand_turn_angle_degrees ∧
      ((ShaderParameters.build 1400 1400).randomize uHalf).max_rand_turn_angle_degrees < 10) ∧
    (0 ≤ ((ShaderParameters.build 1400 1400).randomize uHalf).high_density_speed_boost ∧
      ((ShaderParameters.build 1400 1400).randomize uHalf).high_density_speed_boost < 20) ∧
    (0.5 ≤ ((ShaderParameters.build 1400 1400).randomize uHalf).high_density_threshold ∧
      ((ShaderParameters.build 1400 1400).randomize uHalf).high_density_threshold < 1) ∧
    (0.001 ≤ ((ShaderParameters.build 1400 1400).randomize uHalf).deposit_strength ∧
      ((ShaderParameters.build 1400 1400).randomize uHalf).deposit_strength < 0.03) ∧
    (5 ≤ ((ShaderParameters.build 1400 1400).randomize uHalf).sensor_distance ∧
      ((ShaderParameters.build 1400 1400).randomize uHalf).sensor_distance < 14) ∧
    ((ShaderParameters.build 1400 1400).randomize uHalf).agent_speed
      = (ShaderParameters.build 1400 1400).agent_speed ∧
    ((ShaderParameters.build 1400 1400).randomize uHalf).bool_enable_agent_bounce
      = (ShaderParameters.build 1400 1400).bool_enable_agent_bounce ∧
    ((ShaderParameters.build 1400 1400).randomize uHalf).bool_enable_agent_deposit
      = (ShaderParameters.build 1400 1400).bool_enable_agent_deposit ∧
    ((ShaderParameters.build 1400 1400).randomize uHalf).bool_enable_agent_rotate
      = (ShaderParameters.build 1400 1400).bool_enable_agent_rotate ∧
    ((ShaderParameters.build 1400 1400).randomize uHalf).bool_enable_agent_rotate_left
      = (ShaderParameters.build 1400 1400).bool_enable_agent_rotate_left ∧
    ((ShaderParameters.build 1400 1400).randomize uHalf).bool_enable_agent_rotate_randomly
      = (ShaderParameters.build 1400 1400).bool_enable_agent_rotate_randomly ∧
    ((ShaderParameters.build 1400 1400).randomize uHalf).bool_enable_agent_rotate_right
      = (ShaderParameters.build 1400 1400).bool_enable_agent_rotate_right ∧
    ((ShaderParameters.build 1400 1400).randomize uHalf).bool_enable_color
      = (ShaderParameters.build 1400 1400).bool_enable_color ∧
    ((ShaderParameters.build 1400 1400).randomize uHalf).bool_enable_decay
      = (ShaderParameters.build 1400 1400).bool_enable_decay ∧
    ((ShaderParameters.build 1400 1400).randomize uHalf).bool_enable_diffuse
      = (ShaderParameters.build 1400 1400).bool_enable_diffuse ∧
    ((ShaderParameters.build 1400 1400).randomize uHalf).bool_enable_render_trail_map
      = (ShaderParameters.build 1400 1400).bool_enable_render_trail_map ∧
    ((ShaderParameters.build 1400 1400).randomize uHalf).bool_enable_high_density_dispersion
      = (ShaderParameters.build 1400 1400).bool_enable_high_density_dispersion ∧
    ((ShaderParameters.build 1400 1400).randomize uHalf).canvas_width
      = (ShaderParameters.build 1400 1400).canvas_width ∧
    ((ShaderParameters.build 1400 1400).randomize uHalf).canvas_height
      = (ShaderParameters.build 1400 1400).canvas_height ∧
    ((ShaderParameters.build 1400 1400).randomize uHalf).number_of_active_agents
      = (ShaderParameters.build 1400 1400).number_of_active_agents ∧
    ((ShaderParameters.build 1400 1400).randomize uHalf).vertex_stretch
      = (ShaderParameters.build 1400 1400).vertex_stretch) :=
  ⟨by decide, randomize_ranges (ShaderParameters.build 1400 1400) uHalf (by decide)⟩

/-- Claim C7: `normalize` special-cases zero magnitude, so
`normalize((0,0)) = (0,0)`, and `normalize((3,4)) = (0.6, 0.8)`. -/
theorem normalize_spec_vals :
    normalize (0, 0) = (0, 0) ∧ normalize (3, 4) = (0.6, 0.8) := by
  constructor
  · rw [normalize, if_pos]
    rw [magnitude_eq_zero_iff]
  · have h5 : magnitude (3, 4) = 5 := by
      rw [magnitude]
      rw [show (((3:ℝ), (4:ℝ)).1 ^ 2 + ((3:ℝ), (4:ℝ)).2 ^ 2) = 5 ^ 2 by norm_num]
      exact Real.sqrt_sq (by norm_num)
    rw [normalize, if_neg (by rw [h5]; norm_num), h5]
    norm_num

/-- Claim C8: for a spawn point distinct from the canvas middle, the
`Inward` heading points toward the middle (positive inner product with the
vector to the middle), has magnitude 1, and the `Outward` heading from the
same point is its exact componentwise negation. -/
theorem heading_spec (middle position : ℝ × ℝ) (h : position ≠ middle) :
    0 < dot (inwardHeading middle position) (vector_from_a_to_b position middle) ∧
    magnitude (inwardHeading middle position) = 1 ∧
    outwardHeading middle position =
      (-(inwardHeading middle position).1, -(inwardHeading middle position).2) := by
  have hvne : vector_from_a_to_b position middle ≠ (0, 0) := by
    intro hz
    apply h
    have h1 : middle.1 - position.1 = 0 := congrArg Prod.fst hz
    have h2 : middle.2 - position.2 = 0 := congrArg Prod.snd hz
    rw [Prod.ext_iff]
    exact ⟨by linarith, by linarith⟩
  set v : ℝ × ℝ := vector_from_a_to_b position middle with hv
  set r : ℝ := magnitude v with hrdef
  have hrne : r ≠ 0 := fun hz => hvne ((magnitude_eq_zero_iff v).mp hz)
  have hrpos : 0 < r := lt_of_le_of_ne (Real.sqrt_nonneg _) (Ne.symm hrne)
  have hin : inwardHeading middle position = (v.1 / r, v.2 / r) := by
    rw [inwardHeading, ← hv, normalize, ← hrdef, if_neg hrne]
  have hsq : r ^ 2 = v.1 ^ 2 + v.2 ^ 2 := sq_magnitude v
  refine ⟨?_, ?_, ?_⟩
  · rw [hin, dot]
    have hd : v.1 / r * v.1 + v.2 / r * v.2 = r := by
      field_simp
      nlinarith [hsq]
    simp only
    rw [hd]
    exact hrpos
  · rw [hin, magnitude]
    have hs : ((v.1 / r, v.2 / r) : ℝ × ℝ).1 ^ 2 + ((v.1 / r, v.2 / r) : ℝ × ℝ).2 ^ 2 = 1 := by
      simp only
      field_simp
      nlinarith [hsq]
    rw [hs]
    exact Real.sqrt_one
  · have hneg : vector_from_a_to_b middle position = (-v.1, -v.2) := by
      rw [hv]
      rw [vector_from_a_to_b, vector_from_a_to_b]
      simp only [Prod.mk.injEq]
      exact ⟨by ring, by ring⟩
    have hmagneg : magnitude (-v.1, -v.2) = r := by
      rw [hrdef, magnitude, magnitude]
      norm_num
    rw [outwardHeading, hneg, normalize, hmagneg, if_neg hrne, hin]
    simp only [Prod.mk.injEq]
    exact ⟨by ring, by ring⟩

/-- Witness for C8: instantiated at middle (700, 700) — the middle of the
1400 x 1400 canvas — and spawn point (703, 704). -/
theorem heading_spec_witness :
    ((703 : ℝ), (704 : ℝ)) ≠ ((700 : ℝ), (700 : ℝ)) ∧
    (0 < dot (inwardHeading (700, 700) (703, 704))
        (vector_from_a_to_b (703, 704) (700, 700)) ∧
     magnitude (inwardHeading (700, 700) (703, 704)) = 1 ∧
     outwardHeading (700, 700) (703, 704) =
       (-(inwardHeading (700, 700) (703, 704)).1,
        -(inwardHeading (700, 700) (703, 704)).2)) :=
  ⟨by simp [Prod.ext_iff], heading_spec (700, 700) (703, 704) (by simp [Prod.ext_iff])⟩

/-- Claim C9: with the default `target_ticks_per_second = 60`, the ticker's
inter-tick sleep is exactly 16,666,666 nanoseconds, the integer floor of
10^9 / 60; and 60 is indeed the builder default of the `Parameters`
record. -/
theorem tick_sleep_at_60 :
    tick_sleep_nanos 60 = 16666666 ∧
    (16666666 : ℕ) = 1000000000 / 60 ∧
    ∀ sp : ShaderParameters, (Parameters.build sp).target_ticks_per_second = 60 := by
  exact ⟨rfl, rfl, fun sp => rfl⟩

/-- Claim C10: the event handler of `run` never sets `State::exiting` (the
only `State::exit` call site is commented out), so after any sequence of
delivered events the flag is still false, the ticker's top-of-loop break
check never fires, and `State.exit` itself — which would set the flag — is
never reached. -/
theorem exiting_stays_false (events : List EventM) :
    (runEvents initialAppState events).exiting = false ∧
    tickerBreaks (runEvents initialAppState events) = false ∧
    (∀ s : AppState, (State.exit s).exiting = true) := by
  have h : (runEvents initialAppState events).exiting = false := by
    rw [runEvents_exiting]
    rfl
  exact ⟨h, h, fun s => rfl⟩

end Physarum
